import Mathlib

/-
  Verification of the controlid log-synchronization pipeline.

  Shallow embedding of the Python sources:
    - `database.py`  : access-log store (`save_logs`, `get_last_log_id`).
    - `monitor.py`   : AgilApps conversion, acknowledgment parsing, send retry
                       loop, session-recovery around `load_objects`.
    - `app.py`       : the manual-resend converter and the dashboard session
                       reconstruction (`process_logs_for_dashboard`).
    - `recover_missing_logs.py` : the recovery-tool acknowledgment parsing.
    - `auth.py`      : `login` and its already-active-session guard.
    - `objects.py`   : the `access_logs` since-filter in `load_objects`.

  The SQLite table is modelled as a list of rows; network calls are modelled
  by explicit oracles supplying each request's outcome; Python floats in the
  dashboard arithmetic are modelled over ℚ with round-half-to-even, matching
  Python's `round(x, 2)` on the inputs considered here.
-/

set_option maxRecDepth 4000

deriving instance DecidableEq for Except

/-! ## Access-log records (objects.py `AccessLog`, database.py table rows) -/

/-- The `AccessLog` dataclass of objects.py: `id`, `time`, `event` are
mandatory ints, all remaining fields are `Optional` ints or strings. -/
structure AccessLog where
  id : Int
  time : Int
  event : Int
  device_id : Option Int := none
  identifier_id : Option Int := none
  user_id : Option Int := none
  portal_id : Option Int := none
  identification_rule_id : Option Int := none
  qrcode_value : Option String := none
  pin_value : Option String := none
  card_value : Option Int := none
  confidence : Option Int := none
  mask : Option Int := none
  log_type_id : Option Int := none
  component_id : Option Int := none
deriving DecidableEq

/-- A row of the `access_logs` SQLite table: the record's fields plus the
`device_internal_id` column under which `save_logs` stored it. -/
structure StoredRecord where
  log : AccessLog
  device_internal_id : Int
deriving DecidableEq

/-- The in-memory model of the `access_logs` table: its list of rows. -/
abbrev LogStore := List StoredRecord

/-- Helper used by concrete examples: a record with the given `id` and
`time` and all optional fields absent. -/
def mkLog (i t : Int) : AccessLog :=
  { id := i, time := t, event := 0 }

/-! ## database.py -/

/-- The duplicate probe of `save_logs`
(`SELECT id FROM access_logs WHERE id = ? AND device_internal_id = ?`). -/
def hasKey (store : LogStore) (dev : Int) (logId : Int) : Bool :=
  store.any (fun r => r.log.id == logId && r.device_internal_id == dev)

/-- The table's `id INTEGER PRIMARY KEY` constraint (database.py line 14):
the bare `id` is unique across the WHOLE table, all devices together.  An
INSERT whose id is already stored under any device raises
`sqlite3.IntegrityError`. -/
def hasId (store : LogStore) (logId : Int) : Bool :=
  store.any (fun r => r.log.id == logId)

/-- The observable result of one `save_logs` call: the committed table
contents, the records the call durably inserted, and whether
`sqlite3.IntegrityError` propagated out of the call — in which case the
`conn.commit()` at the end is never reached and nothing of the batch is
committed. -/
structure SaveOutcome where
  store : LogStore
  inserted : List AccessLog
  raised : Bool
deriving DecidableEq

/-- The loop of `save_logs` over the connection's uncommitted state: a
record whose `(id, device_internal_id)` key the probe finds (also one
inserted earlier in the same call, visible to the same connection) is
skipped; otherwise the INSERT runs — raising (`none`) when the bare id
already exists under another device (`id INTEGER PRIMARY KEY`), and
appending the row otherwise. -/
def save_logs_loop : List AccessLog → Int → LogStore → Option (LogStore × List AccessLog)
  | [], _, store => some (store, [])
  | log :: rest, dev, store =>
    if hasKey store dev log.id then save_logs_loop rest dev store
    else if hasId store log.id then none
    else
      match save_logs_loop rest dev (store ++ [⟨log, dev⟩]) with
      | none => none
      | some (s2, ins) => some (s2, log :: ins)

/-- `database.save_logs(logs, device_internal_id)`: run the loop, then
`conn.commit()`.  On `IntegrityError` the exception propagates before the
commit, so the committed store is unchanged and nothing was inserted.  The
`inserted` component is the list of rows the call durably inserts — the
observable effect used by the spec's `insertIfAbsent` return value (the
Python function itself returns `None`). -/
def save_logs (logs : List AccessLog) (dev : Int) (s : LogStore) : SaveOutcome :=
  match save_logs_loop logs dev s with
  | none => ⟨s, [], true⟩
  | some (s2, ins) => ⟨s2, ins, false⟩

/-- Number of rows holding the key `(dev, logId)`. -/
def countKey (store : LogStore) (dev : Int) (logId : Int) : Nat :=
  (store.filter (fun r => r.log.id == logId && r.device_internal_id == dev)).length

/-- SQL `MAX` over a list of values: `none` on the empty list (SQL `NULL`). -/
def maxOf : List Int → Option Int
  | [] => none
  | x :: xs =>
    match maxOf xs with
    | none => some x
    | some m => some (max x m)

/-- The `id` column of the rows stored under device `dev`. -/
def deviceIds (dev : Int) (store : LogStore) : List Int :=
  (store.filter (fun r => r.device_internal_id == dev)).map (fun r => r.log.id)

/-- `database.get_last_log_id(device_internal_id)`:
`SELECT MAX(id) ... WHERE device_internal_id = ?`, then
`result[0] if result and result[0] else None` — Python falsiness maps both a
`NULL` and a `0` maximum to `None`. -/
def get_last_log_id (dev : Int) (store : LogStore) : Option Int :=
  match maxOf (deviceIds dev store) with
  | none => none
  | some v => if v = 0 then none else some v

/-- The `time` column of the rows stored under device `dev`. -/
def deviceTimes (dev : Int) (store : LogStore) : List Int :=
  (store.filter (fun r => r.device_internal_id == dev)).map (fun r => r.log.time)

/-- Modelled from the spec: `getCheckpoint(deviceId) -> Option<Time>`, the
per-device `lastSeenTime`.  `database.get_last_log_time` is imported by
monitor.py and recover_missing_logs.py but is absent from src/database.py;
it is modelled as the per-device maximum over stored record times with the
same `result[0] if result and result[0] else None` falsiness as its sibling
`get_last_log_id` in the same module. -/
def get_last_log_time (dev : Int) (store : LogStore) : Option Int :=
  match maxOf (deviceTimes dev store) with
  | none => none
  | some v => if v = 0 then none else some v

/-- Order in which a checkpoint read may evolve: `none` (no checkpoint) is
below everything, a present value may only grow. -/
def checkpointLE : Option Int → Option Int → Bool
  | none, _ => true
  | some _, none => false
  | some v, some w => v ≤ w

/-! ## Substring matching (monitor.py `"..." in str(e)`) -/

/-- `needle` occurs as a contiguous run inside `hay` (Python's `in`). -/
def containsSub (needle : List Char) : List Char → Bool
  | [] => needle.isEmpty
  | c :: t => needle.isPrefixOf (c :: t) || containsSub needle t

/-- Python's `needle in hay` on strings. -/
def strContains (hay needle : String) : Bool :=
  containsSub needle.toList hay.toList

/-- The condition of monitor.py lines 112 and 61:
`"Ya hay una sesión activa" in error_msg or "Sesión inválida" in error_msg`. -/
def sessionErrorMatches (msg : String) : Bool :=
  strContains msg "Ya hay una sesión activa" || strContains msg "Sesión inválida"

/-! ## auth.py -/

/-- The `Device` dataclass of devices.py. -/
structure Device where
  id : Int
  name : String
  ip : String
  login : String
  password : String
  device_id : Option Int := none
  session_id : Option String := none
deriving DecidableEq

/-- Outcome the network would give `auth.login`'s POST, if it is reached:
either an `httpx.RequestError`, or a response whose parsed JSON has
`data.get("session") = session` (`none` for an absent/null field). -/
inductive LoginNet where
  | requestError (e : String)
  | response (session : Option String)
deriving DecidableEq

/-- `auth.login(device)`: raises `AuthError("Ya hay una sesión activa para
este dispositivo.")` when `device.session_id is not None`, before any
network request; otherwise posts to `/login.fcgi`, stores
`data.get("session")` on the device and raises if it is falsy.  Result:
(raised error or success, device state afterwards, whether the network
request was performed). -/
def login (d : Device) (net : LoginNet) : Except String Unit × Device × Bool :=
  if d.session_id ≠ none then
    (Except.error "Ya hay una sesión activa para este dispositivo.", d, false)
  else
    match net with
    | LoginNet.requestError e => (Except.error ("Error en login: " ++ e), d, true)
    | LoginNet.response sess =>
      let d2 := { d with session_id := sess }
      match sess with
      | none => (Except.error "No se recibió session_id en la respuesta de login", d2, true)
      | some s =>
        if s = "" then
          (Except.error "No se recibió session_id en la respuesta de login", d2, true)
        else (Except.ok (), d2, true)

/-! ## monitor.py: session recovery around `load_objects` (lines 108-119) -/

/-- The calls the recovery block can make, in order. -/
inductive FetchStep where
  | fetchCall
  | logoutCall
  | loginCall
deriving DecidableEq

/-- Oracle for one execution of the recovery block: the outcome of the
first `load_objects`, of `logout`, of `login`, and of the retried
`load_objects`, should each be reached. -/
structure RunOracle where
  fetch1 : Except String (List AccessLog)
  logoutRes : Except String Unit
  loginRes : Except String Unit
  fetch2 : Except String (List AccessLog)
deriving DecidableEq

/-- monitor.py lines 108-119 (`fetch_and_save_logs`; lines 58-67 of
`fetch_initial_logs` are the same shape): try `load_objects`; on an
exception whose message matches `sessionErrorMatches`, run `logout`, then
`login`, then retry `load_objects` once; any other exception is re-raised.
The `logout`/`login` calls are NOT wrapped in a `try`: an error they raise
propagates out of the handler.  Returns the raised error or the fetched
logs, together with the calls performed. -/
def fetch_logs_with_recovery (o : RunOracle) :
    Except String (List AccessLog) × List FetchStep :=
  match o.fetch1 with
  | Except.ok logs => (Except.ok logs, [FetchStep.fetchCall])
  | Except.error msg =>
    if sessionErrorMatches msg then
      match o.logoutRes with
      | Except.error e => (Except.error e, [FetchStep.fetchCall, FetchStep.logoutCall])
      | Except.ok _ =>
        match o.loginRes with
        | Except.error e =>
          (Except.error e, [FetchStep.fetchCall, FetchStep.logoutCall, FetchStep.loginCall])
        | Except.ok _ =>
          (o.fetch2,
           [FetchStep.fetchCall, FetchStep.logoutCall, FetchStep.loginCall, FetchStep.fetchCall])
    else (Except.error msg, [FetchStep.fetchCall])

/-! ## Gregorian calendar (datetime.fromtimestamp / isoformat) -/

/-- Zero-padded two-digit rendering of a day/month/hour field. -/
def pad2 (n : Int) : String :=
  if n < 10 then "0" ++ toString n else toString n

/-- Zero-padded four-digit rendering of a year. -/
def pad4 (n : Int) : String :=
  if n < 10 then "000" ++ toString n
  else if n < 100 then "00" ++ toString n
  else if n < 1000 then "0" ++ toString n
  else toString n

/-- Civil date from days since 1970-01-01 (proleptic Gregorian calendar,
the standard days-to-(year, month, day) conversion). -/
def civilFromDays (z0 : Int) : Int × Int × Int :=
  let z := z0 + 719468
  let era := Int.ediv z 146097
  let doe := z - era * 146097
  let yoe := Int.ediv (doe - Int.ediv doe 1460 + Int.ediv doe 36524 - Int.ediv doe 146096) 365
  let y := yoe + era * 400
  let doy := doe - (365 * yoe + Int.ediv yoe 4 - Int.ediv yoe 100)
  let mp := Int.ediv (5 * doy + 2) 153
  let d := doy - Int.ediv (153 * mp + 2) 5 + 1
  let m := mp + (if mp < 10 then 3 else -9)
  (y + (if m ≤ 2 then 1 else 0), m, d)

/-- `datetime.fromtimestamp(ts, tz=timezone.utc).isoformat()`:
`YYYY-MM-DDTHH:MM:SS+00:00` (microseconds are zero for integer input). -/
def isoUTCString (ts : Int) : String :=
  let days := Int.ediv ts 86400
  let secs := ts - days * 86400
  let c := civilFromDays days
  let hh := Int.ediv secs 3600
  let mi := Int.ediv (secs - hh * 3600) 60
  let ss := secs - hh * 3600 - mi * 60
  pad4 c.1 ++ "-" ++ pad2 c.2.1 ++ "-" ++ pad2 c.2.2 ++ "T" ++
    pad2 hh ++ ":" ++ pad2 mi ++ ":" ++ pad2 ss ++ "+00:00"

/-- `datetime.fromtimestamp(ts).isoformat()` for a host whose local zone is
`tz` seconds ahead of UTC: a naive local timestamp, no offset suffix. -/
def isoNaiveString (ts tz : Int) : String :=
  let lt := ts + tz
  let days := Int.ediv lt 86400
  let secs := lt - days * 86400
  let c := civilFromDays days
  let hh := Int.ediv secs 3600
  let mi := Int.ediv (secs - hh * 3600) 60
  let ss := secs - hh * 3600 - mi * 60
  pad4 c.1 ++ "-" ++ pad2 c.2.1 ++ "-" ++ pad2 c.2.2 ++ "T" ++
    pad2 hh ++ ":" ++ pad2 mi ++ ":" ++ pad2 ss

/-- The timestamps `datetime.fromtimestamp` accepts (datetime years run
from 0001-01-01T00:00:00 to 9999-12-31T23:59:59 UTC); outside this range it
raises. -/
def tsInRange (n : Int) : Bool :=
  -62135596800 ≤ n && n ≤ 253402300799

/-- Digits of a decimal literal, most significant first (helper for
Python's `int(str)`). -/
def digitsAcc (acc : Nat) : List Char → Option Nat
  | [] => some acc
  | c :: t => if c.isDigit then digitsAcc (10 * acc + (c.toNat - 48)) t else none

/-- Python's `int(s)` on a plain decimal string literal, `none` when it
would raise `ValueError`. -/
def pyInt (s : String) : Option Int :=
  match s.toList with
  | [] => none
  | '-' :: rest =>
    match rest with
    | [] => none
    | _ => (digitsAcc 0 rest).map (fun n => -(n : Int))
  | l => (digitsAcc 0 l).map (fun n => (n : Int))

/-! ## Log-dict values and the AgilApps converters -/

/-- A value of `log.__dict__`: `AccessLog` fields are ints, strings or
`None` (the `isinstance(value, float)` branches of the converters are
unreachable on these dicts). -/
inductive PyField where
  | int (n : Int)
  | str (s : String)
  | null
deriving DecidableEq

/-- monitor.py `convert_log_to_agilapps_format` (lines 25-44): `time`
becomes the ISO-8601 UTC string (`""` when the `try` block raises); ints
are kept as ints, `None` as `None`; for a string `str(value) if value
else ""` is the string itself. -/
def convert_log_to_agilapps_format (d : List (String × PyField)) :
    List (String × PyField) :=
  d.map (fun kv =>
    if kv.1 = "time" then
      (kv.1, PyField.str (match kv.2 with
        | PyField.int n => if tsInRange n then isoUTCString n else ""
        | PyField.str s =>
          match pyInt s with
          | some n => if tsInRange n then isoUTCString n else ""
          | none => ""
        | PyField.null => ""))
    else
      match kv.2 with
      | PyField.int n => (kv.1, PyField.int n)
      | PyField.str s => (kv.1, PyField.str s)
      | PyField.null => (kv.1, PyField.null))

/-- app.py `convert_log_to_agilapps_format` (lines 18-37), used by the
manual `/send_all_logs` resend: `time` is rendered with
`datetime.fromtimestamp(value)` — naive LOCAL time (`tz` = host offset),
raising on a non-number or out-of-range value (no `try` here); an int `0`
becomes `"0.00000"`, any other int becomes `str(value)`; `None` becomes
`"0.00000"`; a string stays itself. -/
def convert_log_to_agilapps_format_app (tz : Int) (d : List (String × PyField)) :
    Except String (List (String × PyField)) :=
  d.mapM (fun kv =>
    if kv.1 = "time" then
      match kv.2 with
      | PyField.int n =>
        if tsInRange (n + tz) then Except.ok (kv.1, PyField.str (isoNaiveString n tz))
        else Except.error "OverflowError"
      | _ => Except.error "TypeError"
    else
      match kv.2 with
      | PyField.int n =>
        Except.ok (kv.1, PyField.str (if n = 0 then "0.00000" else toString n))
      | PyField.str s => Except.ok (kv.1, PyField.str s)
      | PyField.null => Except.ok (kv.1, PyField.str "0.00000"))

/-! ## monitor.py: acknowledgment parsing and the send retry loop -/

/-- One `save_sent_log(log_id, sent_at, status, response_id)` call; the
wall-clock `sent_at` argument is not modelled. -/
structure SentWrite where
  log_id : Int
  status : String
  response_id : String
deriving DecidableEq

/-- monitor.py lines 160-169: when `"Messages"` is in the response, walk it
by position, and for each index below `len(logs)` write
`"success"` when the entry's `Id` is `"0"`, else `"error"`; when
`"Messages"` is absent, NO write happens.  Each `Messages` entry is
modelled by its `Id` string. -/
def monitorAckWrites (logs : List AccessLog) : Option (List String) → List SentWrite
  | none => []
  | some ids =>
    List.zipWith (fun (log : AccessLog) idv =>
      ⟨log.id, if idv = "0" then "success" else "error", idv⟩) logs ids

/-- recover_missing_logs.py lines 168-187: with a `Messages` list the same
positional mapping as monitor.py; with it absent (or not a list), every
record in the batch is written as `"success"` with an empty ack code. -/
def recoverAckWrites (logs : List AccessLog) : Option (List String) → List SentWrite
  | none => logs.map (fun log => ⟨log.id, "success", ""⟩)
  | some ids =>
    List.zipWith (fun (log : AccessLog) idv =>
      ⟨log.id, if idv = "0" then "success" else "error", idv⟩) logs ids

/-- monitor.py `MAX_RETRIES`. -/
def MAX_RETRIES : Nat := 3

/-- Outcome the network gives one POST of `send_logs_to_monitor`: a
transport error (`httpx.RequestError`), a non-2xx response
(`raise_for_status` raises `httpx.HTTPStatusError`, which the loop's
`except httpx.RequestError` does NOT catch), or a 2xx JSON response whose
`Messages` list (of `Id` strings) may be absent. -/
inductive SendAttempt where
  | transportError (e : String)
  | statusError (code : Nat)
  | success (messages : Option (List String))
deriving DecidableEq

/-- Result of `send_logs_to_monitor`: a normal return carrying the
`save_sent_log` calls made, or an uncaught exception (no calls made). -/
inductive SendOutcome where
  | returned (writes : List SentWrite)
  | raised
deriving DecidableEq

/-- The `while retry_count < MAX_RETRIES` loop of monitor.py lines 149-178,
with `fuel` retries left and `att i` the outcome of the i-th POST: success
parses acknowledgments and returns; a transport error consumes a retry; a
status error escapes the loop; an exhausted budget logs and returns with no
writes. -/
def sendLoop (logs : List AccessLog) (att : Nat → SendAttempt) (i : Nat) :
    Nat → SendOutcome
  | 0 => SendOutcome.returned []
  | fuel + 1 =>
    match att i with
    | SendAttempt.success msgs => SendOutcome.returned (monitorAckWrites logs msgs)
    | SendAttempt.transportError _ => sendLoop logs att (i + 1) fuel
    | SendAttempt.statusError _ => SendOutcome.raised

/-- monitor.py `send_logs_to_monitor(logs, device_id)` against the attempt
oracle `att`. -/
def send_logs_to_monitor (logs : List AccessLog) (att : Nat → SendAttempt) :
    SendOutcome :=
  sendLoop logs att 0 MAX_RETRIES

/-- The delivery-status writes an outcome performed. -/
def writesOf : SendOutcome → List SentWrite
  | SendOutcome.returned ws => ws
  | SendOutcome.raised => []

/-! ## objects.py: the access_logs since-filter, and its caller -/

/-- The `where` clause `load_objects` puts in the `access_logs` payload:
`{"access_logs": {"time": {op: bound}}}`. -/
structure TimeFilter where
  op : String
  bound : Int
deriving DecidableEq

/-- objects.py lines 113-122: when `start_time` is `None` it defaults to
the start of the current local day (`todayStart`), and the emitted filter
is always `{"time": {">=": start_time}}`. -/
def access_logs_where (start_time : Option Int) (todayStart : Int) : TimeFilter :=
  ⟨">=", match start_time with
         | none => todayStart
         | some t => t⟩

/-- Device-side meaning of the emitted comparison operator applied to an
event time: `">="` keeps events with `bound ≤ t`. -/
def filterMatches (f : TimeFilter) (t : Int) : Bool :=
  if f.op = ">=" then decide (f.bound ≤ t) else false

/-- monitor.py line 106 (also recover_missing_logs.py line 66):
`start_time = last_time + 1 if last_time else None` — Python falsiness
treats both `None` and `0` as no checkpoint. -/
def start_time_from_checkpoint (last_time : Option Int) : Option Int :=
  match last_time with
  | none => none
  | some t => if t = 0 then none else some (t + 1)

/-! ## app.py: dashboard session reconstruction (lines 59-104) -/

/-- Banker's rounding to 2 decimal places over ℚ: Python's `round(x, 2)`
(exact on the dyadic-safe inputs considered here). -/
def round2 (q : ℚ) : ℚ :=
  let x := q * 100
  let n : Int := ⌊x⌋
  let frac : ℚ := x - n
  let r : Int :=
    if frac < 1 / 2 then n
    else if 1 / 2 < frac then n + 1
    else if n % 2 = 0 then n else n + 1
  (r : ℚ) / 100

/-- One dashboard session for a user: `entry_ts`, `exit_ts` (`None` while
open) and `total_hours` (`none` renders the `"N/A"` sentinel of an open
session).  The `format_time` display strings of the source are derived
presentation and are not modelled. -/
structure SessionR where
  entry_ts : Int
  exit_ts : Option Int
  total_hours : Option ℚ
deriving DecidableEq

/-- Stable insertion of a time into a sorted list (`sorted` by `l.time`). -/
def insertTime (t : Int) : List Int → List Int
  | [] => [t]
  | x :: xs => if x ≤ t then x :: insertTime t xs else t :: x :: xs

/-- `sorted(user["logs"], key=lambda l: l.time)`, projected to times. -/
def sortTimes : List Int → List Int
  | [] => []
  | x :: xs => insertTime x (sortTimes xs)

/-- app.py lines 63-87: greedy pairing over one user's time-sorted events —
index i is an entry, index i+1 (if present) its exit, advance by 2; a
trailing unpaired event is an open session (`exit_ts = None`,
`total_hours = "N/A"`); a closed pair gets
`round((exit - entry) / 3600, 2)` hours. -/
def pairSessions : List Int → List SessionR
  | [] => []
  | [t] => [⟨t, none, none⟩]
  | t1 :: t2 :: rest =>
    ⟨t1, some t2, some (round2 (((t2 - t1 : Int) : ℚ) / 3600))⟩ :: pairSessions rest

/-- app.py lines 88-101, accumulator reversed: an open session is appended;
a closed session is appended when the merged list is empty or
`entry_ts - previous.exit_ts >= 60`, and otherwise merged into the previous
session, whose exit and recomputed hours it overwrites.  (The previous
session always has an exit in reachable states — an open session is only
ever last; the `none` fallback appends, where Python would raise.) -/
def mergeLoop : List SessionR → List SessionR → List SessionR
  | acc, [] => acc.reverse
  | acc, s :: rest =>
    match s.exit_ts with
    | none => mergeLoop (s :: acc) rest
    | some e =>
      match acc with
      | [] => mergeLoop (s :: acc) rest
      | prev :: accT =>
        match prev.exit_ts with
        | none => mergeLoop (s :: prev :: accT) rest
        | some pe =>
          if 60 ≤ s.entry_ts - pe then mergeLoop (s :: prev :: accT) rest
          else
            mergeLoop
              ({ prev with
                  exit_ts := some e,
                  total_hours := some (round2 (((e - prev.entry_ts : Int) : ℚ) / 3600)) } :: accT)
              rest

/-- The merge pass over the paired sessions. -/
def mergeSessions (sessions : List SessionR) : List SessionR :=
  mergeLoop [] sessions

/-- Sessions the dashboard computes for one user from the times of their
logs (app.py lines 61-101): sort, pair greedily, merge sub-minute gaps. -/
def process_user_sessions (times : List Int) : List SessionR :=
  mergeSessions (pairSessions (sortTimes times))

/-! ## Concrete instances used by witnesses and counterexamples -/

/-- A store holding one record with a negative id for device 1. -/
def negIdStore : LogStore := [⟨mkLog (-5) 100, 1⟩]

/-- An attempt oracle on which every POST fails with a transport error. -/
def allFailAtt : Nat → SendAttempt := fun _ => SendAttempt.transportError "net down"

/-- A run oracle: matching session error on the first fetch, failing
logout. -/
def logoutFailOracle : RunOracle :=
  ⟨Except.error "Ya hay una sesión activa para este dispositivo.",
   Except.error "Error en logout: timeout",
   Except.ok (),
   Except.ok []⟩

/-- A run oracle for the recovered happy path. -/
def recoveredOracle : RunOracle :=
  ⟨Except.error "Sesión inválida",
   Except.ok (),
   Except.ok (),
   Except.ok [mkLog 9 900]⟩

/-- A device with an already-set session id. -/
def busyDevice : Device :=
  { id := 1, name := "puerta", ip := "10.0.0.2", login := "admin",
    password := "admin", session_id := some "abc123" }

/-- A dict built like `log.__dict__` for a record with `time = 0` and
`user_id = 3`. -/
def sampleDict : List (String × PyField) :=
  [("time", PyField.int 0), ("user_id", PyField.int 3)]

/-- A store holding one record for device 7 with time 42. -/
def timeStore : LogStore := [⟨mkLog 1 42, 7⟩]

/-! ## Helper lemmas -/

theorem hasKey_eq_false_iff (s : LogStore) (dev i : Int) :
    hasKey s dev i = false ↔ countKey s dev i = 0 := by
  induction s with
  | nil => simp [hasKey, countKey]
  | cons r t ih =>
    simp only [hasKey, countKey, List.any_cons, List.filter_cons] at *
    cases hp : (r.log.id == i && r.device_internal_id == dev) with
    | true => simp [hp]
    | false => simp [hp]

theorem hasKey_false_of_hasId_false {s : LogStore} {dev i : Int}
    (h : hasId s i = false) : hasKey s dev i = false := by
  cases hk : hasKey s dev i with
  | false => rfl
  | true =>
    exfalso
    obtain ⟨r, hr, hp⟩ := List.any_eq_true.mp hk
    simp at hp
    have hid : s.any (fun r => r.log.id == i) = true :=
      List.any_eq_true.mpr ⟨r, hr, by simp [hp.1]⟩
    have h2 := h
    unfold hasId at h2
    rw [hid] at h2
    exact Bool.noConfusion h2

theorem save_logs_loop_append (dev : Int) :
    ∀ (logs : List AccessLog) (s s2 : LogStore) (ins : List AccessLog),
      save_logs_loop logs dev s = some (s2, ins) → ∃ t, s2 = s ++ t := by
  intro logs
  induction logs with
  | nil =>
    intro s s2 ins h
    simp only [save_logs_loop, Option.some.injEq, Prod.mk.injEq] at h
    exact ⟨[], by rw [← h.1, List.append_nil]⟩
  | cons log rest ih =>
    intro s s2 ins h
    rw [save_logs_loop] at h
    by_cases hk : hasKey s dev log.id
    · rw [if_pos hk] at h
      exact ih s s2 ins h
    · rw [if_neg hk] at h
      by_cases hid : hasId s log.id
      · rw [if_pos hid] at h
        simp at h
      · rw [if_neg hid] at h
        cases hrec : save_logs_loop rest dev (s ++ [⟨log, dev⟩]) with
        | none => rw [hrec] at h; simp at h
        | some p =>
          obtain ⟨ps, pins⟩ := p
          rw [hrec] at h
          simp only [Option.some.injEq, Prod.mk.injEq] at h
          obtain ⟨t, ht⟩ := ih (s ++ [⟨log, dev⟩]) ps pins hrec
          exact ⟨⟨log, dev⟩ :: t, by rw [← h.1, ht]; simp⟩

theorem save_logs_store_eq_append (logs : List AccessLog) (dev : Int) (s : LogStore) :
    ∃ t, (save_logs logs dev s).store = s ++ t := by
  cases h : save_logs_loop logs dev s with
  | none => exact ⟨[], by simp [save_logs, h]⟩
  | some p =>
    obtain ⟨s2, ins⟩ := p
    obtain ⟨t, ht⟩ := save_logs_loop_append dev logs s s2 ins h
    exact ⟨t, by simp [save_logs, h, ht]⟩

theorem le_maxOf_of_mem {x : Int} : ∀ {l : List Int}, x ∈ l →
    ∃ m, maxOf l = some m ∧ x ≤ m := by
  intro l
  induction l with
  | nil => intro h; cases h
  | cons a t ih =>
    intro hx
    rcases List.mem_cons.mp hx with rfl | hxt
    · cases hmax : maxOf t with
      | none => exact ⟨x, by simp [maxOf, hmax], le_refl x⟩
      | some m => exact ⟨max x m, by simp [maxOf, hmax], le_max_left x m⟩
    · obtain ⟨m, hm, hxm⟩ := ih hxt
      exact ⟨max a m, by simp [maxOf, hm], le_trans hxm (le_max_right a m)⟩

theorem maxOf_mem : ∀ {l : List Int} {m : Int}, maxOf l = some m → m ∈ l := by
  intro l
  induction l with
  | nil => intro m h; simp [maxOf] at h
  | cons a t ih =>
    intro m h
    cases hmax : maxOf t with
    | none =>
      rw [maxOf, hmax] at h
      simp at h
      simp [h]
    | some w =>
      rw [maxOf, hmax] at h
      simp at h
      rcases max_choice a w with hc | hc <;> rw [← h, hc]
      · exact List.mem_cons_self a t
      · exact List.mem_cons_of_mem a (ih hmax)

theorem sendLoop_all_errors (logs : List AccessLog) (att : Nat → SendAttempt) :
    ∀ fuel i, (∀ j, j < fuel → ∃ e, att (i + j) = SendAttempt.transportError e) →
    sendLoop logs att i fuel = SendOutcome.returned [] := by
  intro fuel
  induction fuel with
  | zero => intro i _; rfl
  | succ n ih =>
    intro i h
    obtain ⟨e, he⟩ := h 0 (Nat.succ_pos n)
    rw [Nat.add_zero] at he
    rw [sendLoop, he]
    exact ih (i + 1) (fun j hj => by
      obtain ⟨e2, he2⟩ := h (j + 1) (by omega)
      exact ⟨e2, by rw [← he2]; ring_nf⟩)

/-! ## Claim theorems -/

/-- Claim C1: re-inserting an already-stored record is a committed no-op.
Part one: for a record whose id is not yet stored at all (under any
device — an id already held by ANOTHER device would make the INSERT raise
`sqlite3.IntegrityError`, committing nothing, since `id` is the table's
PRIMARY KEY), the first `save_logs` commits exactly one copy and raises
nothing, and a second identical `save_logs` leaves that one copy, inserts
nothing and raises nothing.  Part two, with no freshness hypothesis: when
the `(dev, id)` key is already present (one stored copy), `save_logs` of
that record skips it before any INSERT — store unchanged, zero inserted,
no error. -/
theorem save_logs_idempotent_insert (s : LogStore) (dev : Int) (log : AccessLog) :
    (hasId s log.id = false →
      (save_logs [log] dev s).raised = false ∧
      countKey (save_logs [log] dev s).store dev log.id = 1 ∧
      save_logs [log] dev ((save_logs [log] dev s).store) =
        ⟨(save_logs [log] dev s).store, [], false⟩) ∧
    (countKey s dev log.id = 1 → save_logs [log] dev s = ⟨s, [], false⟩) := by
  constructor
  · intro hid
    have hk : hasKey s dev log.id = false := hasKey_false_of_hasId_false hid
    have hloop : save_logs_loop [log] dev s = some (s ++ [⟨log, dev⟩], [log]) := by
      simp [save_logs_loop, hk, hid]
    have hfirst : save_logs [log] dev s = ⟨s ++ [⟨log, dev⟩], [log], false⟩ := by
      simp [save_logs, hloop]
    have h0 : countKey s dev log.id = 0 := (hasKey_eq_false_iff s dev log.id).mp hk
    have hone :
        (List.filter (fun r => r.log.id == log.id && r.device_internal_id == dev)
          [(⟨log, dev⟩ : StoredRecord)]).length = 1 := by
      simp
    have hcount : countKey (s ++ [⟨log, dev⟩]) dev log.id = 1 := by
      unfold countKey at h0 ⊢
      rw [List.filter_append, List.length_append, h0, hone]
    have hk2 : hasKey (s ++ [⟨log, dev⟩]) dev log.id = true := by
      simp [hasKey, List.any_append]
    have hloop2 :
        save_logs_loop [log] dev (s ++ [⟨log, dev⟩]) = some (s ++ [⟨log, dev⟩], []) := by
      simp [save_logs_loop, hk2]
    refine ⟨by rw [hfirst], by rw [hfirst]; exact hcount, ?_⟩
    rw [hfirst]
    simp [save_logs, hloop2]
  · intro h1
    have hk : hasKey s dev log.id = true := by
      cases hk : hasKey s dev log.id with
      | true => rfl
      | false =>
        have := (hasKey_eq_false_iff s dev log.id).mp hk
        omega
    have hloop : save_logs_loop [log] dev s = some (s, []) := by
      simp [save_logs_loop, hk]
    simp [save_logs, hloop]

theorem save_logs_idempotent_witness :
    hasId ([] : LogStore) (mkLog 7 5).id = false ∧
    countKey ([⟨mkLog 7 5, 1⟩] : LogStore) 1 (mkLog 7 5).id = 1 ∧
    ((save_logs [mkLog 7 5] 1 []).raised = false ∧
     countKey (save_logs [mkLog 7 5] 1 []).store 1 (mkLog 7 5).id = 1 ∧
     save_logs [mkLog 7 5] 1 ((save_logs [mkLog 7 5] 1 []).store) =
       ⟨(save_logs [mkLog 7 5] 1 []).store, [], false⟩) ∧
    save_logs [mkLog 7 5] 1 [⟨mkLog 7 5, 1⟩] = ⟨[⟨mkLog 7 5, 1⟩], [], false⟩ :=
  ⟨by decide, by decide,
   (save_logs_idempotent_insert [] 1 (mkLog 7 5)).1 (by decide),
   (save_logs_idempotent_insert [⟨mkLog 7 5, 1⟩] 1 (mkLog 7 5)).2 (by decide)⟩

/-- Claim C2 (amended): over stores whose record ids for THE device are
nonnegative — as real device log ids are; other devices' rows are
unconstrained — the checkpoint read back by `get_last_log_id` never
decreases across any `save_logs` call (whether it commits or raises
`IntegrityError` leaving the store unchanged), in the order where `none`
(no checkpoint) is below every value. -/
theorem get_last_log_id_monotone (s : LogStore) (dev : Int) (logs : List AccessLog)
    (hpos : ∀ x ∈ deviceIds dev s, 0 ≤ x) :
    checkpointLE (get_last_log_id dev s)
      (get_last_log_id dev (save_logs logs dev s).store) = true := by
  cases hbefore : get_last_log_id dev s with
  | none => rfl
  | some v =>
    cases hM : maxOf (deviceIds dev s) with
    | none => rw [get_last_log_id, hM] at hbefore; simp at hbefore
    | some w =>
      rw [get_last_log_id, hM] at hbefore
      by_cases hw0 : w = 0
      · simp [hw0] at hbefore
      · have hbefore2 : (if w = 0 then none else some w : Option Int) = some v := hbefore
        rw [if_neg hw0] at hbefore2
        have hvw : w = v := by injection hbefore2
        have hvmem : v ∈ deviceIds dev s := hvw ▸ maxOf_mem hM
        have hv0 : 0 ≤ v := hpos v hvmem
        have hvne : v ≠ 0 := hvw ▸ hw0
        have hvpos : 0 < v := lt_of_le_of_ne hv0 (Ne.symm hvne)
        obtain ⟨t, ht⟩ := save_logs_store_eq_append logs dev s
        have hvmem2 : v ∈ deviceIds dev (save_logs logs dev s).store := by
          rw [ht]
          unfold deviceIds
          rw [List.filter_append, List.map_append]
          exact List.mem_append_left _ hvmem
        obtain ⟨m, hm, hvm⟩ := le_maxOf_of_mem hvmem2
        have hm0 : m ≠ 0 := by omega
        rw [get_last_log_id, hm]
        simp [hm0, checkpointLE, hvm]

theorem get_last_log_id_monotone_witness :
    (∀ x ∈ deviceIds 1 ([⟨mkLog 7 5, 1⟩] : LogStore), 0 ≤ x) ∧
    checkpointLE (get_last_log_id 1 [⟨mkLog 7 5, 1⟩])
      (get_last_log_id 1 (save_logs [mkLog 9 6] 1 [⟨mkLog 7 5, 1⟩]).store) = true :=
  ⟨by decide, get_last_log_id_monotone [⟨mkLog 7 5, 1⟩] 1 [mkLog 9 6] (by decide)⟩

/-- Claim C2 counterexample: on the store holding only a record with the
negative id `-5` for device 1, the checkpoint reads `some (-5)`, but after
`save_logs` of a record with id `0` the maximum id is `0`, which Python
falsiness turns into `None` — the checkpoint read drops. -/
theorem get_last_log_id_can_drop :
    get_last_log_id 1 negIdStore = some (-5) ∧
    (save_logs [mkLog 0 3] 1 negIdStore).raised = false ∧
    get_last_log_id 1 (save_logs [mkLog 0 3] 1 negIdStore).store = none ∧
    checkpointLE (get_last_log_id 1 negIdStore)
      (get_last_log_id 1 (save_logs [mkLog 0 3] 1 negIdStore).store) = false := by
  decide

/-- Claim C3: when every one of the `MAX_RETRIES` POST attempts fails with
a transport error (`httpx.RequestError`), `send_logs_to_monitor` gives up
returning no acknowledgment writes: no `save_sent_log` call is made, so no
record of the batch has its delivery status changed from unsent. -/
theorem send_logs_all_transport_errors_writes_nothing (logs : List AccessLog)
    (att : Nat → SendAttempt)
    (h : ∀ i, i < MAX_RETRIES → ∃ e, att i = SendAttempt.transportError e) :
    send_logs_to_monitor logs att = SendOutcome.returned [] ∧
    writesOf (send_logs_to_monitor logs att) = [] := by
  have hloop : sendLoop logs att 0 MAX_RETRIES = SendOutcome.returned [] :=
    sendLoop_all_errors logs att MAX_RETRIES 0 (fun j hj => by
      obtain ⟨e, he⟩ := h j hj
      exact ⟨e, by rw [← he]; ring_nf⟩)
  refine ⟨hloop, ?_⟩
  rw [send_logs_to_monitor, hloop]
  rfl

theorem send_logs_all_transport_errors_witness :
    send_logs_to_monitor [mkLog 1 5] allFailAtt = SendOutcome.returned [] ∧
    writesOf (send_logs_to_monitor [mkLog 1 5] allFailAtt) = [] :=
  send_logs_all_transport_errors_writes_nothing [mkLog 1 5] allFailAtt
    (fun _ _ => ⟨"net down", rfl⟩)

/-- Claim C4 (amended): a successful response whose `Messages` list is
`["0", "1"]` marks the first submitted record `"success"` (sent) and the
second `"error"` (failed), matched by position, on the periodic path and
the recovery path alike; an absent `Messages` list makes the recovery tool
mark every record of the batch `"success"`, while the periodic forwarder
of monitor.py records nothing at all. -/
theorem ack_outcome_mapping (l1 l2 : AccessLog) :
    monitorAckWrites [l1, l2] (some ["0", "1"]) =
      [⟨l1.id, "success", "0"⟩, ⟨l2.id, "error", "1"⟩] ∧
    recoverAckWrites [l1, l2] (some ["0", "1"]) =
      [⟨l1.id, "success", "0"⟩, ⟨l2.id, "error", "1"⟩] ∧
    monitorAckWrites [l1, l2] none = [] ∧
    recoverAckWrites [l1, l2] none = [⟨l1.id, "success", ""⟩, ⟨l2.id, "success", ""⟩] := by
  refine ⟨?_, ?_, rfl, rfl⟩ <;> simp [monitorAckWrites, recoverAckWrites]

/-- Claim C4 counterexample: a successful response with no `Messages` list
makes `send_logs_to_monitor` return with NO acknowledgment writes — the
two records are not marked sent, where the claim requires both marked
sent (as the recovery path indeed does). -/
theorem monitor_absent_ack_marks_nothing :
    send_logs_to_monitor [mkLog 1 5, mkLog 2 6] (fun _ => SendAttempt.success none) =
      SendOutcome.returned [] ∧
    ((monitorAckWrites [mkLog 1 5, mkLog 2 6] none).any
        (fun w => w.status == "success")) = false ∧
    recoverAckWrites [mkLog 1 5, mkLog 2 6] none =
      [⟨1, "success", ""⟩, ⟨2, "success", ""⟩] := by
  decide

/-- Claim C5 (amended): the periodic-path converter of monitor.py is
field-type preserving — any non-`time` field keeps its value and type
(ints stay ints, strings stay strings, `None` stays `None`), and the
`time` field becomes the ISO-8601 UTC string of its timestamp; the manual
resend path of app.py does NOT share this property. -/
theorem convert_monitor_preserves_types (d : List (String × PyField)) (k : String)
    (v : PyField) (hmem : (k, v) ∈ d) :
    (k ≠ "time" → (k, v) ∈ convert_log_to_agilapps_format d) ∧
    (∀ n : Int, v = PyField.int n → k = "time" → tsInRange n = true →
      (k, PyField.str (isoUTCString n)) ∈ convert_log_to_agilapps_format d) := by
  constructor
  · intro hk
    refine List.mem_map.mpr ⟨(k, v), hmem, ?_⟩
    cases v <;> simp [hk]
  · intro n hv hk hr
    subst hv
    subst hk
    refine List.mem_map.mpr ⟨("time", PyField.int n), hmem, ?_⟩
    simp [hr]

theorem convert_monitor_preserves_types_witness :
    ("user_id", PyField.int 3) ∈ convert_log_to_agilapps_format sampleDict ∧
    ("time", PyField.str (isoUTCString 0)) ∈ convert_log_to_agilapps_format sampleDict :=
  ⟨(convert_monitor_preserves_types sampleDict "user_id" (PyField.int 3)
      (by decide)).1 (by decide),
   (convert_monitor_preserves_types sampleDict "time" (PyField.int 0)
      (by decide)).2 0 rfl rfl (by decide)⟩

/-- Claim C5 counterexample: the manual-resend converter of app.py
(`/send_all_logs`) stringifies numbers — the integer field `event = 7` is
forwarded as the string `"7"`, not as a number. -/
theorem convert_app_stringifies_numbers :
    convert_log_to_agilapps_format_app 0 [("event", PyField.int 7)] =
      Except.ok [("event", PyField.str "7")] ∧
    PyField.str "7" ≠ PyField.int 7 := by
  decide

/-- Claim C6 (amended): when the fetch raises a message matching the
"already active session" / invalid-session condition and `logout` and
`login` both succeed, the handler performs logout, then login, then
retries the fetch exactly once, returning the retried fetch's result (so
it succeeds when credentials are valid); a non-matching error is re-raised
after the fetch alone, with no logout-login-retry.  (The logout call is
NOT best-effort here: see the counterexample.) -/
theorem fetch_session_recovery (o : RunOracle) (msg : String)
    (h1 : o.fetch1 = Except.error msg) :
    (sessionErrorMatches msg = true → o.logoutRes = Except.ok () →
      o.loginRes = Except.ok () →
      fetch_logs_with_recovery o =
        (o.fetch2,
         [FetchStep.fetchCall, FetchStep.logoutCall, FetchStep.loginCall,
          FetchStep.fetchCall])) ∧
    (sessionErrorMatches msg = false →
      fetch_logs_with_recovery o = (Except.error msg, [FetchStep.fetchCall])) := by
  constructor
  · intro hm hlo hli
    rw [fetch_logs_with_recovery, h1]
    simp [hm, hlo, hli]
  · intro hm
    rw [fetch_logs_with_recovery, h1]
    simp [hm]

theorem fetch_session_recovery_witness :
    fetch_logs_with_recovery recoveredOracle =
      (Except.ok [mkLog 9 900],
       [FetchStep.fetchCall, FetchStep.logoutCall, FetchStep.loginCall,
        FetchStep.fetchCall]) :=
  (fetch_session_recovery recoveredOracle "Sesión inválida" rfl).1 (by decide) rfl rfl

/-- Claim C6 counterexample: on a matching session error whose recovery
`logout` itself raises, the handler stops there — the logout error
propagates, `login` is never called and the fetch is not retried, so the
logout attempt is not best-effort with errors swallowed. -/
theorem fetch_recovery_logout_not_best_effort :
    fetch_logs_with_recovery logoutFailOracle =
      (Except.error "Error en logout: timeout",
       [FetchStep.fetchCall, FetchStep.logoutCall]) ∧
    FetchStep.loginCall ∉ (fetch_logs_with_recovery logoutFailOracle).2 := by
  decide

/-- Claim C7: for one user, the events `[entry@t, exit@(t+10)]` reconstruct
to exactly one closed session whose hours are `(10 / 3600)` rounded to two
decimals, and the single event `[entry@t]` reconstructs to exactly one
open session (no exit, `"N/A"` hours). -/
theorem session_pairing (t : Int) :
    process_user_sessions [t, t + 10] =
      [⟨t, some (t + 10), some (round2 (10 / 3600))⟩] ∧
    process_user_sessions [t] = [⟨t, none, none⟩] := by
  constructor
  · have hs : sortTimes [t, t + 10] = [t, t + 10] := by
      simp [sortTimes, insertTime, show ¬(t + 10 ≤ t) by omega]
    rw [process_user_sessions, hs]
    simp only [pairSessions, mergeSessions, mergeLoop, List.reverse_cons,
      List.reverse_nil, List.nil_append]
    have h10 : ((t + 10 - t : Int) : ℚ) = 10 := by push_cast; ring
    rw [h10]
  · simp [process_user_sessions, sortTimes, insertTime, pairSessions,
      mergeSessions, mergeLoop]

/-- Claim C8: for one user, `[entry@0, exit@100, entry@130, exit@500]`
(gap 30s below the 60s threshold) merges into the single session `0..500`
with hours recomputed over the merged span, while
`[entry@0, exit@100, entry@300, exit@500]` (gap 200s) stays two
sessions. -/
theorem session_merge :
    process_user_sessions [0, 100, 130, 500] =
      [⟨0, some 500, some (round2 (500 / 3600))⟩] ∧
    process_user_sessions [0, 100, 300, 500] =
      [⟨0, some 100, some (round2 (100 / 3600))⟩,
       ⟨300, some 500, some (round2 (200 / 3600))⟩] := by
  constructor <;>
    norm_num [process_user_sessions, sortTimes, insertTime, pairSessions,
      mergeSessions, mergeLoop, round2]

/-- Claim C9: `load_objects` always emits the inclusive `">="` lower bound
on event time; with no checkpoint the bound defaults to the start of the
current local day, and with a checkpoint `t` the caller passes `t + 1` so
the bound is `t + 1` (the store getter never reports a checkpoint `0`, so
Python's falsy test agrees with the `none` test). -/
theorem fetch_since_semantics (store : LogStore) (dev : Int) (todayStart : Int) :
    (get_last_log_time dev store = none →
      access_logs_where (start_time_from_checkpoint (get_last_log_time dev store))
        todayStart = ⟨">=", todayStart⟩) ∧
    (∀ t : Int, get_last_log_time dev store = some t →
      start_time_from_checkpoint (get_last_log_time dev store) = some (t + 1) ∧
      access_logs_where (start_time_from_checkpoint (get_last_log_time dev store))
        todayStart = ⟨">=", t + 1⟩) ∧
    (∀ b x : Int, filterMatches ⟨">=", b⟩ x = true ↔ b ≤ x) := by
  refine ⟨fun h => by rw [h]; rfl, fun t h => ?_, fun b x => by simp [filterMatches]⟩
  have ht0 : t ≠ 0 := by
    cases hM : maxOf (deviceTimes dev store) with
    | none => rw [get_last_log_time, hM] at h; simp at h
    | some w =>
      rw [get_last_log_time, hM] at h
      have h2 : (if w = 0 then none else some w : Option Int) = some t := h
      by_cases hw0 : w = 0
      · rw [if_pos hw0] at h2; simp at h2
      · rw [if_neg hw0] at h2
        have : w = t := by injection h2
        exact this ▸ hw0
  rw [h]
  constructor
  · simp [start_time_from_checkpoint, ht0]
  · simp [start_time_from_checkpoint, ht0, access_logs_where]

theorem fetch_since_semantics_witness :
    (access_logs_where
        (start_time_from_checkpoint (get_last_log_time 7 ([] : LogStore))) 86400 =
      ⟨">=", 86400⟩) ∧
    (start_time_from_checkpoint (get_last_log_time 7 timeStore) = some 43 ∧
      access_logs_where (start_time_from_checkpoint (get_last_log_time 7 timeStore))
        86400 = ⟨">=", 43⟩) ∧
    filterMatches ⟨">=", 43⟩ 43 = true :=
  ⟨(fetch_since_semantics [] 7 86400).1 rfl,
   (fetch_since_semantics timeStore 7 86400).2.1 42 (by decide),
   ((fetch_since_semantics timeStore 7 86400).2.2 43 43).mpr (le_refl 43)⟩

/-- Claim C10: `auth.login` on a device whose in-memory `session_id` is
already set raises `AuthError` with the exact message "Ya hay una sesión
activa para este dispositivo." before any network request, leaving the
device unchanged — and that message matches the substring condition the
sync pipeline uses to detect the "already active session" state. -/
theorem login_rejects_active_session (d : Device) (net : LoginNet) (s : String)
    (h : d.session_id = some s) :
    login d net =
      (Except.error "Ya hay una sesión activa para este dispositivo.", d, false) ∧
    sessionErrorMatches "Ya hay una sesión activa para este dispositivo." = true := by
  exact ⟨by simp [login, h], by decide⟩

theorem login_rejects_active_session_witness :
    login busyDevice (LoginNet.response (some "zzz")) =
      (Except.error "Ya hay una sesión activa para este dispositivo.", busyDevice,
        false) ∧
    sessionErrorMatches "Ya hay una sesión activa para este dispositivo." = true :=
  login_rejects_active_session busyDevice (LoginNet.response (some "zzz")) "abc123" rfl
